import Mathlib

/-!
Shallow embedding of the experiment harness and measurement-reduction
pipeline of the PA3 congestion-control assignment scripts
(`tc_experiment.py`, `run_experiments.py`, `analyze_manual_results.py`,
`analyze_results.py`), together with theorems settling the frozen claims
about the natural-language specification.

Python floats on the exact arithmetic paths exercised here are modelled
by `ℚ`; Python `int(...)` truncation of a nonnegative value is modelled
by `Int.floor`.
-/

namespace PA3

/-! ## Data model: raw iperf intervals and canonical records -/

/-- One raw iperf interval record, restricted to exactly the fields that
`run_experiment` in `tc_experiment.py` reads from `interval["sum"]`:
`start`, `seconds`, `bytes`, `retransmits` (lines 122-126). -/
structure RawInterval where
  start : ℚ
  seconds : ℚ
  bytes : ℚ
  retransmits : ℚ
deriving Repr, DecidableEq

/-- One canonical interval sample, the dict appended to `throughput_data`
in `tc_experiment.py` lines 137-142: `{time, throughput, delay, loss}`. -/
structure IntervalSample where
  time : ℚ
  throughput : ℚ
  delay : ℚ
  loss : ℚ
deriving Repr, DecidableEq

/-- The canonical trial summary record written to `result.json` by
`tc_experiment.py` lines 155-161:
`{cc_algorithm, profile, avg_throughput, avg_delay, loss_rate}`. -/
structure TrialSummary where
  cc_algorithm : String
  profile : String
  avg_throughput : ℚ
  avg_delay : ℚ
  loss_rate : ℚ
deriving Repr, DecidableEq

/-! ## Measurement reduction (`tc_experiment.py` lines 120-161) -/

/-- `tc_experiment.py` line 129:
`throughput = (bytes_transferred * 8) / (seconds * 1000000) if seconds > 0 else 0`. -/
def intervalThroughput (iv : RawInterval) : ℚ :=
  if 0 < iv.seconds then iv.bytes * 8 / (iv.seconds * 1000000) else 0

/-- `tc_experiment.py` line 133:
`packets_sent = bytes_transferred / 1500 if bytes_transferred > 0 else 1`. -/
def intervalPacketsSent (iv : RawInterval) : ℚ :=
  if 0 < iv.bytes then iv.bytes / 1500 else 1

/-- `tc_experiment.py` line 134:
`loss_rate = retransmits / packets_sent if packets_sent > 0 else 0`. -/
def intervalLossRate (iv : RawInterval) : ℚ :=
  if 0 < intervalPacketsSent iv then iv.retransmits / intervalPacketsSent iv else 0

/-- The interval sample built in `tc_experiment.py` lines 137-142; the
`delay` field is the constant `delay_ms * 2` ("RTT is roughly 2x the
delay"), independent of the raw record. -/
def reduceInterval (delay_ms : ℚ) (iv : RawInterval) : IntervalSample :=
  { time := iv.start
    throughput := intervalThroughput iv
    delay := delay_ms * 2
    loss := intervalLossRate iv }

/-- Running total `total_throughput` (`tc_experiment.py` lines 116, 144). -/
def totalThroughput (ivs : List RawInterval) : ℚ :=
  (ivs.map intervalThroughput).sum

/-- Running total `total_retransmits` (`tc_experiment.py` lines 117, 145). -/
def totalRetransmits (ivs : List RawInterval) : ℚ :=
  (ivs.map RawInterval.retransmits).sum

/-- Running total `total_bytes` (`tc_experiment.py` lines 118, 146). -/
def totalBytes (ivs : List RawInterval) : ℚ :=
  (ivs.map RawInterval.bytes).sum

/-- The summary computation of `tc_experiment.py` lines 148-161:
averages over the interval list, with guarded divisions (`num_intervals > 0`,
`total_bytes > 0` with fallback packet count 1, `total_packets > 0`), and
`avg_delay = delay_ms * 2` taken from the profile, not from the data. -/
def reduceSummary (cc profile : String) (delay_ms : ℚ) (ivs : List RawInterval) :
    TrialSummary :=
  let numIntervals : ℚ := (ivs.length : ℚ)
  let avgThroughput := if 0 < numIntervals then totalThroughput ivs / numIntervals else 0
  let totalPackets := if 0 < totalBytes ivs then totalBytes ivs / 1500 else 1
  let avgLossRate := if 0 < totalPackets then totalRetransmits ivs / totalPackets else 0
  { cc_algorithm := cc
    profile := profile
    avg_throughput := avgThroughput
    avg_delay := delay_ms * 2
    loss_rate := avgLossRate }

/-- The whole reduction step of `run_experiment`: the ordered interval-sample
series (`throughput_data`) plus the summary (`result`). -/
def reduceTrial (cc profile : String) (delay_ms : ℚ) (ivs : List RawInterval) :
    List IntervalSample × TrialSummary :=
  (ivs.map (reduceInterval delay_ms), reduceSummary cc profile delay_ms ivs)

/-! ## Network profiles -/

/-- `tc_experiment.py` lines 73, 77:
`queue_size_bytes = int(bandwidth_mbps * 1000000 * delay_ms / 8 / 1000)`;
`int(...)` on the nonnegative values used here truncates, i.e. floors. -/
def queueSizeBytes (bandwidth_mbps delay_ms : ℚ) : ℤ :=
  ⌊bandwidth_mbps * 1000000 * delay_ms / 8 / 1000⌋

/-- Parameters a profile resolves to: delay, bandwidth, queue size. -/
structure ProfileParams where
  delay_ms : ℚ
  bandwidth_mbps : ℚ
  queue_bytes : ℤ
deriving Repr, DecidableEq

/-- The profile branch of `run_experiment` (`tc_experiment.py` lines 69-80):
profile1 is (10 ms, 50 Mbps), profile2 is (200 ms, 1 Mbps), queue size
computed from the BDP formula; any other profile name is an error. -/
def tcProfileParams (p : String) : Option ProfileParams :=
  if p = "profile1" then some ⟨10, 50, queueSizeBytes 50 10⟩
  else if p = "profile2" then some ⟨200, 1, queueSizeBytes 1 200⟩
  else none

/-- The profile branch of `run_single_experiment` (`run_experiments.py`
lines 34-47): same delays and bandwidths, with the queue sizes hard-coded
as 62500 and 25000 bytes. -/
def runExpProfileParams (p : String) : Option ProfileParams :=
  if p = "profile1" then some ⟨10, 50, 62500⟩
  else if p = "profile2" then some ⟨200, 1, 25000⟩
  else none

/-! ## Control flow of `run_experiment` (`tc_experiment.py` lines 55-187) -/

/-- The externally visible actions `run_experiment` performs, in order:
setting the congestion-control sysctl before the `try` block; inside the
`try` block: `setup_tc`, starting the iperf server, running the iperf
client, writing `result.json`, writing the throughput CSV; in `finally`:
`cleanup_tc` and killing iperf. -/
inductive TcAction where
  | setCongestion
  | setupTc
  | startServer
  | runClient
  | writeResults
  | writeCsv
  | cleanupTc
  | killIperf
deriving Repr, DecidableEq

/-- The ordered steps of the `try` block of `run_experiment`
(lines 94-178). -/
def tcTrySteps : List TcAction :=
  [TcAction.setupTc, TcAction.startServer, TcAction.runClient,
   TcAction.writeResults, TcAction.writeCsv]

/-- Control flow of `run_experiment` (`tc_experiment.py` lines 55-187) as a
return code together with the trace of actions performed. `failAt = some k`
models an exception raised inside the `try` block after `k` of its steps
(capture failure, timeout kill, malformed JSON, failed write, ...): the
`except` clause returns 1 and the `finally` clause still runs `cleanup_tc`
and the iperf kill. `failAt = none` is the success path, returning 0 after
the same `finally` clause. Unknown profiles and an empty interface name
return 1 before the congestion-control sysctl and the `try` block. -/
def run_experiment (profile iface : String) (failAt : Option ℕ) :
    ℤ × List TcAction :=
  match tcProfileParams profile with
  | none => (1, [])
  | some _ =>
    if iface = "" then (1, [])
    else
      match failAt with
      | none =>
          (0, TcAction.setCongestion ::
            (tcTrySteps ++ [TcAction.cleanupTc, TcAction.killIperf]))
      | some k =>
          (1, TcAction.setCongestion ::
            (tcTrySteps.take k ++ [TcAction.cleanupTc, TcAction.killIperf]))

/-! ## Batch drivers -/

/-- The scheme × profile grid built by both `main`s
(`run_experiments.py` lines 98-101, `tc_experiment.py` lines 212-213):
one trial per (scheme, profile) pair, schemes outermost, in order. -/
def experimentGrid (schemes profiles : List String) : List (String × String) :=
  schemes.flatMap (fun s => profiles.map (fun p => (s, p)))

/-- `run_experiments.py` main lines 103-110: execute every pair of the grid
(sequentially or via `Pool.starmap`, which also maps every pair), recording
each pair's trial result. `trial` abstracts `run_single_experiment`'s
return code for the pair. -/
def runAllTrace (trial : String → String → ℤ) (schemes profiles : List String) :
    List (String × String × ℤ) :=
  (experimentGrid schemes profiles).map (fun sp => (sp.1, sp.2, trial sp.1 sp.2))

/-- `run_experiments.py` main lines 112-118: exit 0 if all collected results
are 0, else exit 1; `sys.exit(main())` (line 121) makes this the process
exit code. -/
def runExperimentsExit (trial : String → String → ℤ) (schemes profiles : List String) :
    ℤ :=
  if (runAllTrace trial schemes profiles).all (fun r => r.2.2 == 0) then 0 else 1

/-- `tc_experiment.py` main lines 204-205: keep only the requested schemes
that appear in the host's available-algorithms list. -/
def tcFilteredSchemes (requested available : List String) : List String :=
  requested.filter (fun s => available.contains s)

/-- `tc_experiment.py` main lines 200-220: if no requested scheme is
available, return 1; otherwise run every (scheme, profile) trial of the
grid — a failed trial is only printed, the loop continues — and return 0
unconditionally at the end. The result is the return value of `main`
together with the executed trials and their result codes. -/
def tc_main (requested available profiles : List String)
    (trial : String → String → ℤ) : ℤ × List (String × String × ℤ) :=
  let schemes := tcFilteredSchemes requested available
  if schemes.isEmpty then (1, [])
  else
    (0, (experimentGrid schemes profiles).map (fun sp => (sp.1, sp.2, trial sp.1 sp.2)))

/-! ## Control flow of `run_single_experiment` (`run_experiments.py` lines 23-82) -/

/-- The external commands `run_single_experiment` issues, in order: the
dry-run availability check, the scheme installation (only when the check
failed), the pantheon test run, the analysis step. -/
inductive PantheonAction where
  | dryRunCheck
  | installScheme
  | runTest
  | analyzeData
deriving Repr, DecidableEq

/-- Return codes the external commands would yield in a given run:
the availability dry-run, the installer, the test run, the analyzer. -/
structure PantheonEnv where
  checkRet : ℤ
  installRet : ℤ
  testRet : ℤ
  analyzeRet : ℤ

/-- Control flow of `run_single_experiment` (`run_experiments.py`
lines 23-82, the first — effective — copy of the file): unknown profiles
return 1 with no command run; otherwise the dry-run check runs, the
installer runs exactly when the check failed (its return code is ignored,
line 58), the test command then runs unconditionally, its failure is
returned as-is (lines 72-75), and on test success the analyzer runs and
its return code is returned (lines 78-82). -/
def run_single_experiment (profile : String) (env : PantheonEnv) :
    ℤ × List PantheonAction :=
  if (runExpProfileParams profile).isNone then (1, [])
  else
    let acts :=
      if env.checkRet ≠ 0 then
        [PantheonAction.dryRunCheck, PantheonAction.installScheme, PantheonAction.runTest]
      else
        [PantheonAction.dryRunCheck, PantheonAction.runTest]
    if env.testRet ≠ 0 then (env.testRet, acts)
    else (env.analyzeRet, acts ++ [PantheonAction.analyzeData])

/-! ## Comparison-table builders -/

/-- One row of the comparison table written by
`analyze_manual_results.py` lines 89-96: scheme, displayed throughput,
RTT and loss rate. -/
structure ComparisonRow where
  scheme : String
  avg_throughput : ℚ
  avg_rtt : ℚ
  loss_rate : ℚ
deriving Repr, DecidableEq

/-- `analyze_manual_results.py` lines 63-71: the displayed throughput is
`min(avg_throughput, 50)` under profile1, `min(avg_throughput, 1)` under
profile2, and the raw value for any other profile. -/
def adjustedThroughput (profile : String) (raw : ℚ) : ℚ :=
  if profile = "profile1" then min raw 50
  else if profile = "profile2" then min raw 1
  else raw

/-- The comparison row `analyze_manual_results.py` builds (lines 63-96)
from a stored `result.json` record: throughput display-normalized by
`adjustedThroughput`, delay and loss taken as stored. The stored record is
only read, never written back. -/
def manualComparisonRow (profile scheme : String) (stored : TrialSummary) :
    ComparisonRow :=
  { scheme := scheme
    avg_throughput := adjustedThroughput profile stored.avg_throughput
    avg_rtt := stored.avg_delay
    loss_rate := stored.loss_rate }

/-- The throughput displayed by the `analyze_results.py` pipeline:
`parse_pantheon_logs` stores `result_data.get('avg_throughput', 0)`
unmodified (line 49, line 64) and `generate_comparison_table` puts exactly
that value into the `Avg Throughput (Mbps)` column (line 194) — no profile
ceiling is applied anywhere on this path. -/
def pantheonDisplayThroughput (stored : TrialSummary) : ℚ :=
  stored.avg_throughput

/-- A stored trial record with a raw average throughput of 3.4 Mbps under
profile2, the situation named by the specification's ceiling example. -/
def overshootRecord : TrialSummary :=
  { cc_algorithm := "cubic"
    profile := "profile2"
    avg_throughput := 17 / 5
    avg_delay := 400
    loss_rate := 0 }

/-- An environment in which the availability dry-run fails and the install
attempt fails too (the scheme stays unavailable), while the test and
analysis commands would succeed if run. -/
def unavailableEnv : PantheonEnv :=
  { checkRet := 1, installRet := 1, testRet := 0, analyzeRet := 0 }

/-- A per-trial result assignment in which exactly the bbr trial fails. -/
def bbrFails : String → String → ℤ :=
  fun s _ => if s = "bbr" then 1 else 0

/-! ## Theorems settling the claims -/

/-- C1: for every trial that reaches emulation setup (known profile,
non-empty interface), `cleanup_tc` appears exactly once in the trace of
`run_experiment`, on the success path and on every exception path of the
`try` block (configure failure, capture failure, timeout kill, write
failure) alike: the `finally` clause runs it exactly once per trial. -/
theorem c1_teardown_exactly_once (profile iface : String) (failAt : Option ℕ)
    (h1 : (tcProfileParams profile).isSome = true) (h2 : iface ≠ "") :
    ((run_experiment profile iface failAt).2.count TcAction.cleanupTc) = 1 := by
  obtain ⟨pp, hp⟩ := Option.isSome_iff_exists.mp h1
  have htake : ∀ k : ℕ, (tcTrySteps.take k).count TcAction.cleanupTc = 0 := by
    intro k
    exact Nat.le_zero.mp (le_trans
      (List.Sublist.count_le (List.take_sublist k tcTrySteps) _)
      (by decide))
  cases failAt with
  | none =>
      simp [run_experiment, hp, h2]
      decide
  | some k =>
      simp [run_experiment, hp, h2, List.count_cons, List.count_append, htake k]

/-- C1 witness: a concrete trial on profile1 over interface eth0 whose
capture step raises still tears down exactly once. -/
theorem c1_witness :
    ((run_experiment "profile1" "eth0" (some 2)).2.count TcAction.cleanupTc) = 1 :=
  c1_teardown_exactly_once "profile1" "eth0" (some 2) (by decide) (by decide)

/-- C2 counterexample: a grid with one available scheme whose single trial
fails. `tc_experiment.py`'s `main` (its run command) still returns 0
although the executed trial's result is 1, refuting "exit code 0 iff every
executed trial succeeded" for this run command. -/
theorem c2_counterexample :
    (tc_main ["cubic"] ["cubic"] ["profile1"] (fun _ _ => 1)).1 = 0 ∧
    (tc_main ["cubic"] ["cubic"] ["profile1"] (fun _ _ => 1)).2 =
      [("cubic", "profile1", 1)] := by
  constructor <;> decide

/-- C2 (amended): `run_experiments.py`'s run command exits 0 iff every
executed trial of the grid returned 0, and exits 1 otherwise (it only ever
exits 0 or 1); `tc_experiment.py`'s run command instead returns 0 whenever
at least one requested scheme is available, regardless of per-trial
failures. -/
theorem c2_exit_code (trial t2 : String → String → ℤ)
    (schemes profiles req avail prof : List String)
    (hne : tcFilteredSchemes req avail ≠ []) :
    (runExperimentsExit trial schemes profiles = 0 ↔
      ∀ sp ∈ experimentGrid schemes profiles, trial sp.1 sp.2 = 0) ∧
    (runExperimentsExit trial schemes profiles = 0 ∨
      runExperimentsExit trial schemes profiles = 1) ∧
    (tc_main req avail prof t2).1 = 0 := by
  refine ⟨?_, ?_, ?_⟩
  · unfold runExperimentsExit runAllTrace
    constructor
    · intro h0 sp hmem
      by_contra hne0
      rw [if_neg] at h0
      · exact absurd h0 (by norm_num)
      · intro hcond
        rw [List.all_eq_true] at hcond
        have := hcond _ (List.mem_map_of_mem _ hmem)
        simp only [beq_iff_eq] at this
        exact hne0 this
    · intro hall
      rw [if_pos]
      rw [List.all_eq_true]
      intro r hr
      obtain ⟨sp, hsp, rfl⟩ := List.mem_map.mp hr
      simpa using hall sp hsp
  · unfold runExperimentsExit
    split
    · exact Or.inl rfl
    · exact Or.inr rfl
  · unfold tc_main
    rw [if_neg]
    simpa [List.isEmpty_iff] using hne

/-- C2 witness: a two-pair grid in which every trial succeeds, so
`run_experiments.py` exits 0, while a one-scheme `tc_experiment.py` batch
with a failing trial still returns 0. -/
theorem c2_witness :
    (runExperimentsExit (fun _ _ => 0) ["cubic"] ["profile1", "profile2"] = 0 ↔
      ∀ sp ∈ experimentGrid ["cubic"] ["profile1", "profile2"],
        (fun _ _ => (0 : ℤ)) sp.1 sp.2 = 0) ∧
    (runExperimentsExit (fun _ _ => 0) ["cubic"] ["profile1", "profile2"] = 0 ∨
      runExperimentsExit (fun _ _ => 0) ["cubic"] ["profile1", "profile2"] = 1) ∧
    (tc_main ["cubic"] ["cubic"] ["profile1"] (fun _ _ => 1)).1 = 0 :=
  c2_exit_code (fun _ _ => 0) (fun _ _ => 1) ["cubic"] ["profile1", "profile2"]
    ["cubic"] ["cubic"] ["profile1"] (by decide)

/-- C3 counterexample: the `analyze_results.py` comparison pipeline
displays the stored raw avg_throughput of 3.4 Mbps under profile2 as 3.4,
not as the claimed min(3.4, 1) = 1.0: no profile ceiling is applied on
that path. -/
theorem c3_counterexample :
    overshootRecord.profile = "profile2" ∧
    pantheonDisplayThroughput overshootRecord = 17 / 5 ∧
    pantheonDisplayThroughput overshootRecord ≠ 1 := by
  refine ⟨rfl, rfl, ?_⟩
  norm_num [pantheonDisplayThroughput, overshootRecord]

/-- C3 (amended): the `analyze_manual_results.py` comparison builder
displays `min(raw, 50)` under profile1 and `min(raw, 1)` under profile2
while the stored record keeps its raw value (3.4 stays 3.4); the
`analyze_results.py` comparison builder, by contrast, displays the raw
throughput unchanged, with no ceiling. -/
theorem c3_ceiling_display (scheme : String) (stored : TrialSummary) :
    (manualComparisonRow "profile1" scheme stored).avg_throughput =
      min stored.avg_throughput 50 ∧
    (manualComparisonRow "profile2" scheme stored).avg_throughput =
      min stored.avg_throughput 1 ∧
    (manualComparisonRow "profile2" scheme overshootRecord).avg_throughput = 1 ∧
    overshootRecord.avg_throughput = 17 / 5 ∧
    pantheonDisplayThroughput stored = stored.avg_throughput := by
  have h21 : ("profile2" : String) ≠ "profile1" := by decide
  refine ⟨?_, ?_, ?_, rfl, rfl⟩
  · simp [manualComparisonRow, adjustedThroughput]
  · simp [manualComparisonRow, adjustedThroughput, h21]
  · simp [manualComparisonRow, adjustedThroughput, overshootRecord, h21]
    norm_num

/-- C4 counterexample: reducing zero intervals under profile1
(delay 10 ms) yields an empty series, but the summary's avg_delay field is
20, not zero — the claim's "every numeric field is zero" fails. -/
theorem c4_counterexample :
    (reduceTrial "cubic" "profile1" 10 []).1 = [] ∧
    (reduceTrial "cubic" "profile1" 10 []).2.avg_delay = 20 ∧
    (reduceTrial "cubic" "profile1" 10 []).2.avg_delay ≠ 0 := by
  refine ⟨rfl, ?_, ?_⟩ <;>
    norm_num [reduceTrial, reduceSummary]

/-- C4 (amended): reducing zero raw intervals is a defined result, never an
error: it yields the empty IntervalSample sequence and a summary with
avg_throughput = 0 and loss_rate = 0, but with avg_delay equal to twice
the profile's configured delay (as for every input), not zero. -/
theorem c4_empty_input (cc p : String) (d : ℚ) :
    reduceTrial cc p d [] =
      ([], { cc_algorithm := cc, profile := p, avg_throughput := 0,
             avg_delay := d * 2, loss_rate := 0 }) := by
  simp [reduceTrial, reduceSummary, totalThroughput, totalBytes, totalRetransmits]

/-- C5 counterexample: an interval with bytes_transferred = 0 and
5 retransmits gets loss fraction 5, not the claimed 0: the code substitutes
an estimated packet count of 1 (not 0) when no bytes were transferred, so
the retransmit count leaks through. -/
theorem c5_counterexample :
    intervalLossRate ⟨0, 1, 0, 5⟩ = 5 ∧
    intervalLossRate ⟨0, 1, 0, 5⟩ ≠ 0 := by
  constructor <;> norm_num [intervalLossRate, intervalPacketsSent]

/-- C5 (amended): the loss fraction of a shape-(a) interval is
retransmits / (bytes_transferred / 1500) when bytes_transferred > 0; when
bytes_transferred = 0 (or negative) the estimated packet count defaults to
1, so the loss fraction equals the retransmit count — it is 0 only when
there were no retransmits. -/
theorem c5_loss_fraction (d : ℚ) (iv : RawInterval) :
    (reduceInterval d iv).loss =
      if 0 < iv.bytes then iv.retransmits / (iv.bytes / 1500)
      else iv.retransmits := by
  show intervalLossRate iv = _
  unfold intervalLossRate intervalPacketsSent
  by_cases hb : 0 < iv.bytes
  · rw [if_pos hb, if_pos hb, if_pos (div_pos hb (by norm_num))]
  · rw [if_neg hb, if_neg hb, if_pos (by norm_num : (0 : ℚ) < 1), div_one]

/-- C6: the throughput of every reduced shape-(a) interval is
(bytes · 8) / (seconds · 10^6) when seconds > 0 and 0 when seconds ≤ 0;
in particular an interval with seconds = 1 and bytes_transferred = 125000
reduces to throughput 1.0 Mbps. -/
theorem c6_throughput (d : ℚ) (iv : RawInterval) :
    (reduceInterval d iv).throughput =
      (if 0 < iv.seconds then iv.bytes * 8 / (iv.seconds * 1000000) else 0) ∧
    (reduceInterval d ⟨0, 1, 125000, 0⟩).throughput = 1 := by
  constructor
  · rfl
  · norm_num [reduceInterval, intervalThroughput]

/-- C7 counterexample: with the dry-run check failing and the install
attempt failing too (scheme still unavailable), `run_single_experiment`
installs once but then still executes the test run — and here even returns
0 — instead of failing with ToolUnavailable before running. -/
theorem c7_counterexample :
    (run_single_experiment "profile1" unavailableEnv).2.count
      PantheonAction.installScheme = 1 ∧
    PantheonAction.runTest ∈ (run_single_experiment "profile1" unavailableEnv).2 ∧
    (run_single_experiment "profile1" unavailableEnv).1 = 0 := by
  refine ⟨?_, ?_, ?_⟩ <;> decide

/-- C7 (amended): for every trial on a known profile, the install command
runs exactly once when the availability dry-run fails and never otherwise
— never more than once — and the test run is executed unconditionally
afterwards: the runner never fails with ToolUnavailable instead of
running, whatever the install attempt returned. -/
theorem c7_install_once (profile : String) (env : PantheonEnv)
    (h : (runExpProfileParams profile).isSome = true) :
    ((run_single_experiment profile env).2.count PantheonAction.installScheme =
      if env.checkRet ≠ 0 then 1 else 0) ∧
    PantheonAction.runTest ∈ (run_single_experiment profile env).2 := by
  have hn : (runExpProfileParams profile).isNone = false := by
    rcases hp : runExpProfileParams profile with _ | pp
    · rw [hp] at h
      simp at h
    · rfl
  by_cases hc : env.checkRet ≠ 0 <;> by_cases ht : env.testRet ≠ 0 <;>
      simp [run_single_experiment, hn, hc, ht]

/-- C7 witness: a trial on profile1 whose scheme passes the dry-run check
installs nothing and still runs the test. -/
theorem c7_witness :
    ((run_single_experiment "profile1" ⟨0, 0, 0, 0⟩).2.count
        PantheonAction.installScheme =
      if (0 : ℤ) ≠ 0 then 1 else 0) ∧
    PantheonAction.runTest ∈ (run_single_experiment "profile1" ⟨0, 0, 0, 0⟩).2 :=
  c7_install_once "profile1" ⟨0, 0, 0, 0⟩ (by decide)

/-- C8: when exactly one trial of the grid fails, the batch driver of
`run_experiments.py` still executes every pair of the grid — the trace has
one persisted entry per pair, each carrying that pair's own result, so the
N−1 other trials complete unaffected — while the overall exit code is 1. -/
theorem c8_isolated_failure (trial : String → String → ℤ)
    (schemes profiles : List String)
    (h : (experimentGrid schemes profiles).countP
        (fun sp => trial sp.1 sp.2 != 0) = 1) :
    (runAllTrace trial schemes profiles).length =
      (experimentGrid schemes profiles).length ∧
    (∀ sp ∈ experimentGrid schemes profiles,
      (sp.1, sp.2, trial sp.1 sp.2) ∈ runAllTrace trial schemes profiles) ∧
    runExperimentsExit trial schemes profiles = 1 := by
  refine ⟨by simp [runAllTrace], ?_, ?_⟩
  · intro sp hmem
    exact List.mem_map_of_mem _ hmem
  · have hpos : 0 < (experimentGrid schemes profiles).countP
        (fun sp => trial sp.1 sp.2 != 0) := h ▸ Nat.one_pos
    obtain ⟨sp, hmem, hfail⟩ := List.countP_pos_iff.mp hpos
    have hne0 : trial sp.1 sp.2 ≠ 0 := by simpa using hfail
    unfold runExperimentsExit runAllTrace
    rw [if_neg]
    intro hcond
    rw [List.all_eq_true] at hcond
    have := hcond _ (List.mem_map_of_mem _ hmem)
    simp only [beq_iff_eq] at this
    exact hne0 this

/-- C8 witness: schemes [cubic, bbr] over [profile1] with exactly the bbr
trial failing: both trials are executed and persisted, exit code is 1. -/
theorem c8_witness :
    (runAllTrace bbrFails ["cubic", "bbr"] ["profile1"]).length =
      (experimentGrid ["cubic", "bbr"] ["profile1"]).length ∧
    (∀ sp ∈ experimentGrid ["cubic", "bbr"] ["profile1"],
      (sp.1, sp.2, bbrFails sp.1 sp.2) ∈
        runAllTrace bbrFails ["cubic", "bbr"] ["profile1"]) ∧
    runExperimentsExit bbrFails ["cubic", "bbr"] ["profile1"] = 1 :=
  c8_isolated_failure bbrFails ["cubic", "bbr"] ["profile1"] (by decide)

/-- C9: every profile both scripts resolve carries the bandwidth-delay
product queue size: queue_bytes equals
bandwidth_mbps · 1000000 · delay_ms / 8 / 1000 exactly, the hard-coded
constants of `run_experiments.py` agree with the computed values of
`tc_experiment.py`, and the two profiles derive 62500 and 25000 bytes. -/
theorem c9_queue_is_bdp (p : String) (pp : ProfileParams)
    (h : tcProfileParams p = some pp) :
    ((pp.queue_bytes : ℚ) =
      pp.bandwidth_mbps * 1000000 * pp.delay_ms / 8 / 1000) ∧
    runExpProfileParams p = some pp ∧
    (pp.queue_bytes = 62500 ∨ pp.queue_bytes = 25000) := by
  have hq1 : queueSizeBytes 50 10 = 62500 := by
    unfold queueSizeBytes
    norm_num
  have hq2 : queueSizeBytes 1 200 = 25000 := by
    unfold queueSizeBytes
    norm_num
  unfold tcProfileParams at h
  split_ifs at h with h1 h2
  · injection h with h'
    subst h'
    subst h1
    refine ⟨?_, ?_, Or.inl hq1⟩
    · rw [hq1]
      norm_num
    · simp [runExpProfileParams, hq1]
  · injection h with h'
    subst h'
    subst h2
    refine ⟨?_, ?_, Or.inr hq2⟩
    · rw [hq2]
      norm_num
    · simp [runExpProfileParams, hq2, h1]

/-- C9 witness: profile1 resolves to (10 ms, 50 Mbps, 62500 bytes) in both
scripts and satisfies the BDP formula. -/
theorem c9_witness :
    (((⟨10, 50, 62500⟩ : ProfileParams).queue_bytes : ℚ) =
      (⟨10, 50, 62500⟩ : ProfileParams).bandwidth_mbps * 1000000 *
        (⟨10, 50, 62500⟩ : ProfileParams).delay_ms / 8 / 1000) ∧
    runExpProfileParams "profile1" = some ⟨10, 50, 62500⟩ ∧
    ((⟨10, 50, 62500⟩ : ProfileParams).queue_bytes = 62500 ∨
      (⟨10, 50, 62500⟩ : ProfileParams).queue_bytes = 25000) :=
  c9_queue_is_bdp "profile1" ⟨10, 50, 62500⟩
    (by norm_num [tcProfileParams, queueSizeBytes])

/-- Helper: the delays of the reduced interval series are the constant
`delay_ms * 2`, one per raw interval. -/
theorem delay_map_replicate (d : ℚ) (l : List RawInterval) :
    (l.map (reduceInterval d)).map IntervalSample.delay =
      List.replicate l.length (d * 2) := by
  induction l with
  | nil => rfl
  | cons a t ih => simp [List.replicate_succ, ih, reduceInterval]

/-- C10: the delay column of the reduced series and the summary's
avg_delay depend only on the profile's configured delay and the interval
count, never on the raw interval contents: two raw inputs of equal length
yield identical delay outputs, every sample's delay is the constant
2 · delay_ms, and avg_delay is 2 · delay_ms. -/
theorem c10_delay_noninterference (d : ℚ) (cc p : String)
    (raw1 raw2 : List RawInterval) (h : raw1.length = raw2.length) :
    ((reduceTrial cc p d raw1).1.map IntervalSample.delay =
      (reduceTrial cc p d raw2).1.map IntervalSample.delay) ∧
    (reduceTrial cc p d raw1).2.avg_delay =
      (reduceTrial cc p d raw2).2.avg_delay ∧
    ((reduceTrial cc p d raw1).1.map IntervalSample.delay =
      List.replicate raw1.length (d * 2)) ∧
    (reduceTrial cc p d raw1).2.avg_delay = d * 2 := by
  refine ⟨?_, rfl, delay_map_replicate d raw1, rfl⟩
  show (raw1.map (reduceInterval d)).map IntervalSample.delay =
    (raw2.map (reduceInterval d)).map IntervalSample.delay
  rw [delay_map_replicate, delay_map_replicate, h]

/-- C10 witness: two one-interval raw inputs with entirely different
contents produce the same delay outputs under profile1's 10 ms delay. -/
theorem c10_witness :
    (((reduceTrial "cubic" "profile1" 10 [⟨0, 1, 125000, 0⟩]).1.map
        IntervalSample.delay) =
      ((reduceTrial "cubic" "profile1" 10 [⟨3, 2, 999, 7⟩]).1.map
        IntervalSample.delay)) ∧
    (reduceTrial "cubic" "profile1" 10 [⟨0, 1, 125000, 0⟩]).2.avg_delay =
      (reduceTrial "cubic" "profile1" 10 [⟨3, 2, 999, 7⟩]).2.avg_delay ∧
    ((reduceTrial "cubic" "profile1" 10 [⟨0, 1, 125000, 0⟩]).1.map
        IntervalSample.delay =
      List.replicate ([⟨0, 1, 125000, 0⟩] : List RawInterval).length (10 * 2)) ∧
    (reduceTrial "cubic" "profile1" 10 [⟨0, 1, 125000, 0⟩]).2.avg_delay = 10 * 2 :=
  c10_delay_noninterference 10 "cubic" "profile1"
    [⟨0, 1, 125000, 0⟩] [⟨3, 2, 999, 7⟩] rfl

end PA3
